import Mathlib

/-!
Shallow embedding of the go-smbus package (src/smbus.go): a Go SMBus client
wrapping a Linux i2c character device.

The OS and kernel side (file open, file close, the raw ioctl syscall, and
the C helper layer from the bundled i2c-dev.h header, which is not part of
the Go source under src/) is modelled by an explicit `Kernel` record of fake
responses.  Every client operation additionally returns the list of
kernel-facing events it caused, so that properties about which syscalls
were issued can be stated and proved.
-/

namespace GoSmbus

/-- Go error values that occur in the package: `errors.New` strings, OS
errors surfaced by `os.OpenFile` or a failing `Close`, `os.ErrInvalid`
(returned by `(*os.File).Close` on a nil receiver), and C `errno` values
surfaced by cgo as `syscall.Errno`. -/
inductive GoError where
  | errString (s : String)
  | osError (code : Nat)
  | errInvalid
  | errno (e : Nat)
  deriving DecidableEq, Repr

/-- The thirteen C helper entry points of i2c-dev.h exactly as the Go code
invokes them (the arguments after the file descriptor). -/
inductive SMBusCall where
  | writeQuick (value : Nat)
  | readByte
  | writeByte (value : Nat)
  | readByteData (cmd : Nat)
  | writeByteData (cmd : Nat) (value : Nat)
  | readWordData (cmd : Nat)
  | writeWordData (cmd : Nat) (value : Nat)
  | processCall (cmd : Nat) (value : Nat)
  | readBlockData (cmd : Nat)
  | writeBlockData (cmd : Nat) (len : Nat) (data : List Nat)
  | readI2cBlockData (cmd : Nat) (len : Nat)
  | writeI2cBlockData (cmd : Nat) (len : Nat) (data : List Nat)
  | blockProcessCall (cmd : Nat) (len : Nat) (data : List Nat)
  deriving DecidableEq, Repr

/-- Kernel-facing events a client operation can cause: a raw ioctl syscall
(as issued by `Set_addr`), the submission of one SMBus transaction through a
C helper, an OS file open, and an OS file close. -/
inductive Event where
  | ioctl (fd : Nat) (cmd : Nat) (arg : Nat)
  | submit (fd : Int) (call : SMBusCall)
  | osOpen (path : String)
  | osClose (fd : Nat)
  deriving DecidableEq, Repr

/-- What the fake kernel reports for one submitted SMBus transaction: the
signed status returned by the C helper's underlying transaction, the `errno`
value after the call (0 meaning success; cgo turns a non-zero value into a
Go error), and the data block the kernel fills for read-style calls. -/
structure KernelResponse where
  status : Int
  errno : Nat
  block : List Nat
  deriving DecidableEq, Repr

/-- A fake OS/kernel: responses for file open (device path to file
descriptor or OS error code), file close, the raw ioctl syscall, and the
SMBus transactions. -/
structure Kernel where
  openFd : String → Except Nat Nat
  closeErrno : Nat → Nat
  ioctlErrno : Nat → Nat → Nat → Nat
  respond : Int → SMBusCall → KernelResponse

/-- The `SMBus` struct of smbus.go: a bus file (`nil` modelled as `none`,
an open file by its descriptor) and the cached slave address. -/
structure SMBus where
  bus : Option Nat
  addr : Nat
  deriving DecidableEq, Repr

/-- The outcome of running a Go call: a normal return, or a runtime fault
such as indexing an empty slice or slicing out of range. -/
inductive Outcome (α : Type) where
  | ok (a : α)
  | crash (msg : String)
  deriving DecidableEq, Repr

/-- `(*os.File).Fd()`: the descriptor of an open file; on a nil receiver the
Go standard library returns `^uintptr(0)`, that is `2 ^ 64 - 1`. -/
def Fd (bus : Option Nat) : Nat :=
  match bus with
  | some fd => fd
  | none => 2 ^ 64 - 1

/-- Conversion of a `uintptr` value to `C.int`: truncate to 32 bits and
reinterpret in two's complement. -/
def cint (n : Nat) : Int :=
  if n % 2 ^ 32 < 2 ^ 31 then ((n % 2 ^ 32 : Nat) : Int)
  else ((n % 2 ^ 32 : Nat) : Int) - 2 ^ 32

/-- The cgo errno convention: the error result of a `C.f(...)` call is nil
exactly when `errno` is 0, and otherwise carries the errno value. -/
def goErr (e : Nat) : Option GoError :=
  if e = 0 then none else some (GoError.errno e)

/-- Go conversion `byte(x)` applied to a signed C value: truncation to the
low 8 bits of the two's-complement representation. -/
def gobyte (x : Int) : Nat := (x % 256).toNat

/-- Go conversion `uint16(x)`: truncation to the low 16 bits. -/
def gouint16 (x : Int) : Nat := (x % 65536).toNat

/-- C bitwise `&` of a 32-bit signed value with a non-negative mask: only
the low two's-complement bits of the signed value matter, so the result is
the `Nat` bitwise and of `x % 2 ^ 32` with the mask. -/
def andMask32 (x : Int) (m : Nat) : Int := (((x % 2 ^ 32).toNat &&& m : Nat) : Int)

/-- The ioctl request code used to select the target slave address. -/
def i2c_SLAVE : Nat := 0x0703

/-- `ioctl(fd, cmd, arg)` from smbus.go: one raw syscall; a non-zero errno
is returned as the Go error. -/
def ioctl (k : Kernel) (fd : Nat) (cmd : Nat) (arg : Nat) :
    Option GoError × List Event :=
  (goErr (k.ioctlErrno fd cmd arg), [Event.ioctl fd cmd arg])

/-- `Set_addr` from smbus.go: when the requested address differs from the
cached one, issue the i2c_SLAVE ioctl and, on success, update the cache;
otherwise do nothing. -/
def Set_addr (k : Kernel) (smb : SMBus) (addr : Nat) :
    Option GoError × SMBus × List Event :=
  if smb.addr ≠ addr then
    match ioctl k (Fd smb.bus) i2c_SLAVE addr with
    | (some e, ev) => (some e, smb, ev)
    | (none, ev) => (none, { smb with addr := addr }, ev)
  else (none, smb, [])

/-- `Bus_open` from smbus.go: refuse when a bus is already open, otherwise
open the device at path `/dev/i2c-<bus>`. -/
def Bus_open (k : Kernel) (smb : SMBus) (bus : Nat) :
    Option GoError × SMBus × List Event :=
  match smb.bus with
  | some _ => (some (GoError.errString "Can only open one bus at at time"), smb, [])
  | none =>
    match k.openFd ("/dev/i2c-" ++ toString bus) with
    | Except.error e =>
        (some (GoError.osError e), smb, [Event.osOpen ("/dev/i2c-" ++ toString bus)])
    | Except.ok fd =>
        (none, { smb with bus := some fd }, [Event.osOpen ("/dev/i2c-" ++ toString bus)])

/-- `Bus_close` from smbus.go: `smb.bus.Close()`.  On a nil file the Go
standard library returns `os.ErrInvalid` without any OS call; on a
successful close the bus field is reset to nil; on a failing close the
field is left as is. -/
def Bus_close (k : Kernel) (smb : SMBus) : Option GoError × SMBus × List Event :=
  match smb.bus with
  | none => (some GoError.errInvalid, smb, [])
  | some fd =>
    if k.closeErrno fd = 0 then (none, { smb with bus := none }, [Event.osClose fd])
    else (some (GoError.osError (k.closeErrno fd)), smb, [Event.osClose fd])

/-- `New` from smbus.go: allocate a zeroed client, open the bus, then set
the address, failing fast on either error. -/
def New (k : Kernel) (bus : Nat) (address : Nat) :
    Except GoError SMBus × List Event :=
  match Bus_open k { bus := none, addr := 0 } bus with
  | (some e, _, ev) => (Except.error e, ev)
  | (none, smb1, ev) =>
    match Set_addr k smb1 address with
    | (some e, _, ev2) => (Except.error e, ev ++ ev2)
    | (none, smb2, ev2) => (Except.ok smb2, ev ++ ev2)

/-- Modelled from the spec: the value-returning C helpers of the bundled
i2c-dev.h header (this header is not in the Go source tree).  Each submits
one generic transaction; for byte/word-returning operations the return
value itself is the decoded data, a negative status is an errno-style
failure. -/
def c_value_call (k : Kernel) (fd : Int) (c : SMBusCall) : Int × Nat × List Event :=
  let r := k.respond fd c
  (r.status, r.errno, [Event.submit fd c])

/-- Overwrite the front of `buf` with `src`, keeping the remaining tail. -/
def overlay (buf src : List Nat) : List Nat := src ++ buf.drop src.length

/-- Modelled from the spec: the block-reading C helpers of the bundled
i2c-dev.h header (read-block-data, read-i2c-block-data and the read half of
block-process-call).  On success the kernel-reported byte count is returned
(the result count is authoritative, not the caller capacity) and exactly
those bytes are copied into the front of the caller's buffer; on failure
the status and errno are returned with the buffer untouched. -/
def c_block_read (k : Kernel) (fd : Int) (c : SMBusCall) (buf : List Nat) :
    Int × Nat × List Nat × List Event :=
  let r := k.respond fd c
  if r.errno = 0 then ((r.block.length : Int), 0, overlay buf r.block, [Event.submit fd c])
  else (r.status, r.errno, buf, [Event.submit fd c])

/-- `Write_quick` from smbus.go. -/
def Write_quick (k : Kernel) (smb : SMBus) (value : Nat) :
    Option GoError × List Event :=
  let sa := Set_addr k smb smb.addr
  let r := c_value_call k (cint (Fd sa.2.1.bus)) (SMBusCall.writeQuick value)
  (goErr r.2.1, sa.2.2 ++ r.2.2)

/-- `Read_byte` from smbus.go: on a cgo error the C return value is replaced
by 0; the result is `byte(ret & 0x0FF)`. -/
def Read_byte (k : Kernel) (smb : SMBus) :
    (Nat × Option GoError) × List Event :=
  let sa := Set_addr k smb smb.addr
  let r := c_value_call k (cint (Fd sa.2.1.bus)) SMBusCall.readByte
  let ret : Int := if r.2.1 ≠ 0 then 0 else r.1
  ((gobyte (andMask32 ret 0x0FF), goErr r.2.1), sa.2.2 ++ r.2.2)

/-- `Write_byte` from smbus.go. -/
def Write_byte (k : Kernel) (smb : SMBus) (value : Nat) :
    Option GoError × List Event :=
  let sa := Set_addr k smb smb.addr
  let r := c_value_call k (cint (Fd sa.2.1.bus)) (SMBusCall.writeByte value)
  (goErr r.2.1, sa.2.2 ++ r.2.2)

/-- `Read_byte_data` from smbus.go. -/
def Read_byte_data (k : Kernel) (smb : SMBus) (cmd : Nat) :
    (Nat × Option GoError) × List Event :=
  let sa := Set_addr k smb smb.addr
  let r := c_value_call k (cint (Fd sa.2.1.bus)) (SMBusCall.readByteData cmd)
  let ret : Int := if r.2.1 ≠ 0 then 0 else r.1
  ((gobyte (andMask32 ret 0x0FF), goErr r.2.1), sa.2.2 ++ r.2.2)

/-- `Write_byte_data` from smbus.go. -/
def Write_byte_data (k : Kernel) (smb : SMBus) (cmd : Nat) (value : Nat) :
    Option GoError × List Event :=
  let sa := Set_addr k smb smb.addr
  let r := c_value_call k (cint (Fd sa.2.1.bus)) (SMBusCall.writeByteData cmd value)
  (goErr r.2.1, sa.2.2 ++ r.2.2)

/-- `Read_word_data` from smbus.go (the one pointer-receiver operation: the
client state after the internal `Set_addr` call is returned as well). -/
def Read_word_data (k : Kernel) (smb : SMBus) (cmd : Nat) :
    (Nat × Option GoError) × SMBus × List Event :=
  let sa := Set_addr k smb smb.addr
  let r := c_value_call k (cint (Fd sa.2.1.bus)) (SMBusCall.readWordData cmd)
  let ret : Int := if r.2.1 ≠ 0 then 0 else r.1
  ((gouint16 (andMask32 ret 0x0FFFF), goErr r.2.1), sa.2.1, sa.2.2 ++ r.2.2)

/-- `Write_word_data` from smbus.go. -/
def Write_word_data (k : Kernel) (smb : SMBus) (cmd : Nat) (value : Nat) :
    Option GoError × List Event :=
  let sa := Set_addr k smb smb.addr
  let r := c_value_call k (cint (Fd sa.2.1.bus)) (SMBusCall.writeWordData cmd value)
  (goErr r.2.1, sa.2.2 ++ r.2.2)

/-- `Process_call` from smbus.go: same masking discipline as the word
read. -/
def Process_call (k : Kernel) (smb : SMBus) (cmd : Nat) (value : Nat) :
    (Nat × Option GoError) × List Event :=
  let sa := Set_addr k smb smb.addr
  let r := c_value_call k (cint (Fd sa.2.1.bus)) (SMBusCall.processCall cmd value)
  let ret : Int := if r.2.1 ≠ 0 then 0 else r.1
  ((gouint16 (andMask32 ret 0x0FFFF), goErr r.2.1), sa.2.2 ++ r.2.2)

/-- `Read_block_data` from smbus.go: takes `&buf[0]` (a runtime fault on an
empty slice, before any kernel call) and returns the helper's status as the
count together with the cgo error; the buffer is filled in place. -/
def Read_block_data (k : Kernel) (smb : SMBus) (cmd : Nat) (buf : List Nat) :
    Outcome ((Int × Option GoError) × List Nat) × List Event :=
  let sa := Set_addr k smb smb.addr
  if buf.isEmpty then (Outcome.crash "index out of range", sa.2.2)
  else
    let r := c_block_read k (cint (Fd sa.2.1.bus)) (SMBusCall.readBlockData cmd) buf
    (Outcome.ok ((r.1, goErr r.2.1), r.2.2.1), sa.2.2 ++ r.2.2.2)

/-- `Write_block_data` from smbus.go: passes `C.__u8(len(buf))` and
`&buf[0]` (a runtime fault on an empty slice). -/
def Write_block_data (k : Kernel) (smb : SMBus) (cmd : Nat) (buf : List Nat) :
    Outcome (Int × Option GoError) × List Event :=
  let sa := Set_addr k smb smb.addr
  if buf.isEmpty then (Outcome.crash "index out of range", sa.2.2)
  else
    let r := c_value_call k (cint (Fd sa.2.1.bus))
      (SMBusCall.writeBlockData cmd (buf.length % 256) buf)
    (Outcome.ok (r.1, goErr r.2.1), sa.2.2 ++ r.2.2)

/-- `Read_i2c_block_data` from smbus.go. -/
def Read_i2c_block_data (k : Kernel) (smb : SMBus) (cmd : Nat) (buf : List Nat) :
    Outcome ((Int × Option GoError) × List Nat) × List Event :=
  let sa := Set_addr k smb smb.addr
  if buf.isEmpty then (Outcome.crash "index out of range", sa.2.2)
  else
    let r := c_block_read k (cint (Fd sa.2.1.bus))
      (SMBusCall.readI2cBlockData cmd (buf.length % 256)) buf
    (Outcome.ok ((r.1, goErr r.2.1), r.2.2.1), sa.2.2 ++ r.2.2.2)

/-- `Write_i2c_block_data` from smbus.go. -/
def Write_i2c_block_data (k : Kernel) (smb : SMBus) (cmd : Nat) (buf : List Nat) :
    Outcome (Int × Option GoError) × List Event :=
  let sa := Set_addr k smb smb.addr
  if buf.isEmpty then (Outcome.crash "index out of range", sa.2.2)
  else
    let r := c_value_call k (cint (Fd sa.2.1.bus))
      (SMBusCall.writeI2cBlockData cmd (buf.length % 256) buf)
    (Outcome.ok (r.1, goErr r.2.1), sa.2.2 ++ r.2.2)

/-- `Block_process_call` from smbus.go: on a cgo error returns nil, and on
success returns `buf[:ret]` over the in-place updated buffer (a runtime
fault if `ret` is negative or exceeds the buffer length). -/
def Block_process_call (k : Kernel) (smb : SMBus) (cmd : Nat) (buf : List Nat) :
    Outcome (Option (List Nat) × Option GoError) × List Event :=
  let sa := Set_addr k smb smb.addr
  if buf.isEmpty then (Outcome.crash "index out of range", sa.2.2)
  else
    let r := c_block_read k (cint (Fd sa.2.1.bus))
      (SMBusCall.blockProcessCall cmd (buf.length % 256) buf) buf
    if r.2.1 ≠ 0 then (Outcome.ok (none, goErr r.2.1), sa.2.2 ++ r.2.2.2)
    else if r.1 < 0 ∨ (r.2.2.1.length : Int) < r.1 then
      (Outcome.crash "slice bounds out of range", sa.2.2 ++ r.2.2.2)
    else (Outcome.ok (some (r.2.2.1.take r.1.toNat), none), sa.2.2 ++ r.2.2.2)

/-- One protocol operation of the public surface, with its arguments. -/
inductive Op where
  | wquick (v : Nat)
  | rbyte
  | wbyte (v : Nat)
  | rbyteData (c : Nat)
  | wbyteData (c : Nat) (v : Nat)
  | rwordData (c : Nat)
  | wwordData (c : Nat) (v : Nat)
  | procCall (c : Nat) (v : Nat)
  | rblockData (c : Nat) (buf : List Nat)
  | wblockData (c : Nat) (buf : List Nat)
  | riBlockData (c : Nat) (buf : List Nat)
  | wiBlockData (c : Nat) (buf : List Nat)
  | bprocCall (c : Nat) (buf : List Nat)
  deriving DecidableEq, Repr

/-- The result shapes of the public operations: error only, numeric value
with error, count with error and the in-place updated buffer, and optional
byte slice with error. -/
inductive OpResult where
  | unitR (err : Option GoError)
  | valR (v : Nat) (err : Option GoError)
  | cntR (n : Int) (err : Option GoError) (buf : List Nat)
  | bytesR (bs : Option (List Nat)) (err : Option GoError)
  deriving DecidableEq, Repr

/-- The error component of an operation result. -/
def errOf : OpResult → Option GoError
  | OpResult.unitR e => e
  | OpResult.valR _ e => e
  | OpResult.cntR _ e _ => e
  | OpResult.bytesR _ e => e

/-- Map a function over a normal outcome, preserving runtime faults. -/
def mapOutcome {α β : Type} (f : α → β) : Outcome α → Outcome β
  | Outcome.ok a => Outcome.ok (f a)
  | Outcome.crash m => Outcome.crash m

/-- Uniform driver over the thirteen public operations, returning the
outcome, the client state after the call (only `Read_word_data` has a
pointer receiver; the others leave the caller's copy untouched), and the
event trace. -/
def runOp (k : Kernel) (smb : SMBus) : Op → Outcome OpResult × SMBus × List Event
  | Op.wquick v =>
    let r := Write_quick k smb v
    (Outcome.ok (OpResult.unitR r.1), smb, r.2)
  | Op.rbyte =>
    let r := Read_byte k smb
    (Outcome.ok (OpResult.valR r.1.1 r.1.2), smb, r.2)
  | Op.wbyte v =>
    let r := Write_byte k smb v
    (Outcome.ok (OpResult.unitR r.1), smb, r.2)
  | Op.rbyteData c =>
    let r := Read_byte_data k smb c
    (Outcome.ok (OpResult.valR r.1.1 r.1.2), smb, r.2)
  | Op.wbyteData c v =>
    let r := Write_byte_data k smb c v
    (Outcome.ok (OpResult.unitR r.1), smb, r.2)
  | Op.rwordData c =>
    let r := Read_word_data k smb c
    (Outcome.ok (OpResult.valR r.1.1 r.1.2), r.2.1, r.2.2)
  | Op.wwordData c v =>
    let r := Write_word_data k smb c v
    (Outcome.ok (OpResult.unitR r.1), smb, r.2)
  | Op.procCall c v =>
    let r := Process_call k smb c v
    (Outcome.ok (OpResult.valR r.1.1 r.1.2), smb, r.2)
  | Op.rblockData c buf =>
    let r := Read_block_data k smb c buf
    (mapOutcome (fun x => OpResult.cntR x.1.1 x.1.2 x.2) r.1, smb, r.2)
  | Op.wblockData c buf =>
    let r := Write_block_data k smb c buf
    (mapOutcome (fun x => OpResult.cntR x.1 x.2 buf) r.1, smb, r.2)
  | Op.riBlockData c buf =>
    let r := Read_i2c_block_data k smb c buf
    (mapOutcome (fun x => OpResult.cntR x.1.1 x.1.2 x.2) r.1, smb, r.2)
  | Op.wiBlockData c buf =>
    let r := Write_i2c_block_data k smb c buf
    (mapOutcome (fun x => OpResult.cntR x.1 x.2 buf) r.1, smb, r.2)
  | Op.bprocCall c buf =>
    let r := Block_process_call k smb c buf
    (mapOutcome (fun x => OpResult.bytesR x.1 x.2) r.1, smb, r.2)

/-- Run a list of operations in sequence, threading the client state and
concatenating the event traces. -/
def runOps (k : Kernel) : SMBus → List Op → SMBus × List Event
  | smb, [] => (smb, [])
  | smb, op :: rest =>
    let r := runOp k smb op
    let r2 := runOps k r.2.1 rest
    (r2.1, r.2.2 ++ r2.2)

/-- Whether an event is the address-select (i2c_SLAVE) ioctl. -/
def isSlaveIoctl : Event → Bool
  | Event.ioctl _ cmd _ => cmd == i2c_SLAVE
  | _ => false

/-- Number of address-select ioctls in a trace. -/
def countIoctl (ev : List Event) : Nat := (ev.filter isSlaveIoctl).length

/-- Whether a trace contains a transaction submission. -/
def hasSubmit (ev : List Event) : Bool :=
  ev.any fun e =>
    match e with
    | Event.submit _ _ => true
    | _ => false

/-- The C helper invocation each operation performs. -/
def callOf : Op → SMBusCall
  | Op.wquick v => SMBusCall.writeQuick v
  | Op.rbyte => SMBusCall.readByte
  | Op.wbyte v => SMBusCall.writeByte v
  | Op.rbyteData c => SMBusCall.readByteData c
  | Op.wbyteData c v => SMBusCall.writeByteData c v
  | Op.rwordData c => SMBusCall.readWordData c
  | Op.wwordData c v => SMBusCall.writeWordData c v
  | Op.procCall c v => SMBusCall.processCall c v
  | Op.rblockData c _ => SMBusCall.readBlockData c
  | Op.wblockData c buf => SMBusCall.writeBlockData c (buf.length % 256) buf
  | Op.riBlockData c buf => SMBusCall.readI2cBlockData c (buf.length % 256)
  | Op.wiBlockData c buf => SMBusCall.writeI2cBlockData c (buf.length % 256) buf
  | Op.bprocCall c buf => SMBusCall.blockProcessCall c (buf.length % 256) buf

/-- The operations that take a caller buffer require it non-empty to avoid
the `&buf[0]` runtime fault. -/
def bufOK : Op → Prop
  | Op.rblockData _ buf => buf ≠ []
  | Op.wblockData _ buf => buf ≠ []
  | Op.riBlockData _ buf => buf ≠ []
  | Op.wiBlockData _ buf => buf ≠ []
  | Op.bprocCall _ buf => buf ≠ []
  | _ => True

instance : DecidablePred bufOK := fun op => by
  cases op <;> simp only [bufOK] <;> infer_instance

/-- A fake kernel on which every OS and kernel interaction succeeds and
every transaction reports status `0x1234` with an empty data block. -/
def kFake : Kernel where
  openFd := fun _ => Except.ok 3
  closeErrno := fun _ => 0
  ioctlErrno := fun _ _ _ => 0
  respond := fun _ _ => { status := 0x1234, errno := 0, block := [] }

/-- A fake kernel on which every transaction fails with status `-1` and
errno 9 (EBADF). -/
def kErr : Kernel where
  openFd := fun _ => Except.ok 3
  closeErrno := fun _ => 0
  ioctlErrno := fun _ _ _ => 0
  respond := fun _ _ => { status := -1, errno := 9, block := [] }

/-- A fake kernel whose transactions succeed and yield the five-byte block
`[1, 2, 3, 4, 5]`. -/
def kBlock : Kernel where
  openFd := fun _ => Except.ok 3
  closeErrno := fun _ => 0
  ioctlErrno := fun _ _ _ => 0
  respond := fun _ _ => { status := 5, errno := 0, block := [1, 2, 3, 4, 5] }

theorem set_addr_self (k : Kernel) (smb : SMBus) :
    Set_addr k smb smb.addr = (none, smb, []) := by
  simp [Set_addr]

theorem cint_fd_none : cint (Fd none) = -1 := by decide

theorem hasSubmit_single (fd : Int) (c : SMBusCall) :
    hasSubmit [Event.submit fd c] = true := rfl

theorem set_addr_events (k : Kernel) (smb : SMBus) (a2 : Nat) (h : smb.addr ≠ a2) :
    (Set_addr k smb a2).2.2 = [Event.ioctl (Fd smb.bus) i2c_SLAVE a2] := by
  simp only [Set_addr, ioctl, h, ne_eq, not_false_iff, if_true]
  split <;> simp_all

theorem mask8 (s : Int) (hs : 0 ≤ s) : gobyte (andMask32 s 255) = s.toNat % 2 ^ 8 := by
  rcases Int.eq_ofNat_of_zero_le hs with ⟨n, rfl⟩
  unfold gobyte andMask32
  have h1 : ((n : Int) % 2 ^ 32).toNat = n % 2 ^ 32 := by
    norm_cast
  rw [h1]
  have h2 : n % 2 ^ 32 &&& 255 = n % 2 ^ 8 := by
    have h255 : (255 : Nat) = 2 ^ 8 - 1 := by norm_num
    rw [h255, Nat.and_pow_two_sub_one_eq_mod, Nat.mod_mod_of_dvd]
    exact ⟨2 ^ 24, by norm_num⟩
  rw [h2]
  have h3 : n % 2 ^ 8 < 256 := Nat.mod_lt _ (by norm_num)
  omega

theorem mask16 (s : Int) (hs : 0 ≤ s) : gouint16 (andMask32 s 65535) = s.toNat % 2 ^ 16 := by
  rcases Int.eq_ofNat_of_zero_le hs with ⟨n, rfl⟩
  unfold gouint16 andMask32
  have h1 : ((n : Int) % 2 ^ 32).toNat = n % 2 ^ 32 := by
    norm_cast
  rw [h1]
  have h2 : n % 2 ^ 32 &&& 65535 = n % 2 ^ 16 := by
    have h65535 : (65535 : Nat) = 2 ^ 16 - 1 := by norm_num
    rw [h65535, Nat.and_pow_two_sub_one_eq_mod, Nat.mod_mod_of_dvd]
    exact ⟨2 ^ 16, by norm_num⟩
  rw [h2]
  have h3 : n % 2 ^ 16 < 65536 := Nat.mod_lt _ (by norm_num)
  omega

theorem runOp_state (k : Kernel) (smb : SMBus) (op : Op) :
    (runOp k smb op).2.1 = smb := by
  cases op <;> simp [runOp, Read_word_data, set_addr_self]

theorem c_value_call_events (k : Kernel) (fd : Int) (c : SMBusCall) :
    (c_value_call k fd c).2.2 = [Event.submit fd c] := rfl

theorem c_block_read_events (k : Kernel) (fd : Int) (c : SMBusCall) (buf : List Nat) :
    (c_block_read k fd c buf).2.2.2 = [Event.submit fd c] := by
  simp only [c_block_read]
  split <;> rfl

theorem countIoctl_append (a b : List Event) :
    countIoctl (a ++ b) = countIoctl a + countIoctl b := by
  simp [countIoctl]

theorem countIoctl_submit (fd : Int) (c : SMBusCall) :
    countIoctl [Event.submit fd c] = 0 := rfl

theorem runOp_countIoctl (k : Kernel) (smb : SMBus) (op : Op) :
    countIoctl (runOp k smb op).2.2 = 0 := by
  cases op <;>
    simp only [runOp, Write_quick, Read_byte, Write_byte, Read_byte_data, Write_byte_data,
      Read_word_data, Write_word_data, Process_call, Read_block_data, Write_block_data,
      Read_i2c_block_data, Write_i2c_block_data, Block_process_call, set_addr_self] <;>
    (repeat' split) <;>
    simp [countIoctl, isSlaveIoctl, c_value_call_events, c_block_read_events]

theorem opSurfacesErrno (k : Kernel) (smb : SMBus) (op : Op) (e : Nat)
    (hbuf : bufOK op)
    (h : (k.respond (cint (Fd smb.bus)) (callOf op)).errno = e)
    (he : e ≠ 0) :
    (runOp k smb op).2.2 = [Event.submit (cint (Fd smb.bus)) (callOf op)] ∧
    ∃ res, (runOp k smb op).1 = Outcome.ok res ∧ errOf res = some (GoError.errno e) := by
  cases op <;>
    simp only [bufOK] at hbuf <;>
    simp only [callOf] at h <;>
    simp [runOp, Write_quick, Read_byte, Write_byte, Read_byte_data, Write_byte_data,
      Read_word_data, Write_word_data, Process_call, Read_block_data, Write_block_data,
      Read_i2c_block_data, Write_i2c_block_data, Block_process_call, set_addr_self,
      c_value_call, c_block_read, callOf, errOf, mapOutcome, goErr, hbuf, h, he]

theorem runOps_countIoctl (k : Kernel) (smb : SMBus) (ops : List Op) :
    countIoctl (runOps k smb ops).2 = 0 := by
  induction ops generalizing smb with
  | nil => simp [runOps, countIoctl]
  | cons op rest ih =>
    have h1 := runOp_countIoctl k smb op
    have h2 := ih (runOp k smb op).2.1
    simp only [runOps, countIoctl, List.filter_append, List.length_append] at h1 h2 ⊢
    omega

/-- C1 counterexample: calling `Read_block_data` with an empty buffer does
not return an InvalidArgument error; it hits the `&buf[0]` index-out-of-range
runtime fault before any kernel interaction (the trace is empty). -/
theorem C1_counterexample :
    Read_block_data kFake ⟨some 3, 5⟩ 0 [] = (Outcome.crash "index out of range", []) := by
  decide

/-- C1 (amended): the buffer-style operations perform no length validation
at all.  An empty buffer causes the index-out-of-range runtime fault of
`&buf[0]` before any kernel submission, with no InvalidArgument error; any
non-empty buffer, including buffers longer than 32 (or 31 for
block-process-call) bytes, always reaches the kernel transaction-submission
step. -/
theorem C1_amended (k : Kernel) (smb : SMBus) (c : Nat) (buf : List Nat) :
    (buf = [] →
      Read_block_data k smb c buf = (Outcome.crash "index out of range", []) ∧
      Write_block_data k smb c buf = (Outcome.crash "index out of range", []) ∧
      Read_i2c_block_data k smb c buf = (Outcome.crash "index out of range", []) ∧
      Write_i2c_block_data k smb c buf = (Outcome.crash "index out of range", []) ∧
      Block_process_call k smb c buf = (Outcome.crash "index out of range", [])) ∧
    (buf ≠ [] →
      hasSubmit (Read_block_data k smb c buf).2 = true ∧
      hasSubmit (Write_block_data k smb c buf).2 = true ∧
      hasSubmit (Read_i2c_block_data k smb c buf).2 = true ∧
      hasSubmit (Write_i2c_block_data k smb c buf).2 = true ∧
      hasSubmit (Block_process_call k smb c buf).2 = true) := by
  constructor
  · rintro rfl
    refine ⟨?_, ?_, ?_, ?_, ?_⟩ <;>
      simp [Read_block_data, Write_block_data, Read_i2c_block_data, Write_i2c_block_data,
        Block_process_call, set_addr_self]
  · intro h
    refine ⟨?_, ?_, ?_, ?_, ?_⟩ <;>
      simp only [Read_block_data, Write_block_data, Read_i2c_block_data,
        Write_i2c_block_data, Block_process_call, set_addr_self] <;>
      (repeat' split) <;>
      simp_all [hasSubmit_single, c_value_call_events, c_block_read_events, hasSubmit]

/-- C1 amended witness: a 40-byte buffer (well beyond the 32-byte protocol
ceiling) still reaches the kernel submission step on all five buffer-style
operations. -/
theorem C1_amended_witness :
    hasSubmit (Read_block_data kFake ⟨some 3, 5⟩ 0 (List.replicate 40 7)).2 = true ∧
    hasSubmit (Write_block_data kFake ⟨some 3, 5⟩ 0 (List.replicate 40 7)).2 = true ∧
    hasSubmit (Read_i2c_block_data kFake ⟨some 3, 5⟩ 0 (List.replicate 40 7)).2 = true ∧
    hasSubmit (Write_i2c_block_data kFake ⟨some 3, 5⟩ 0 (List.replicate 40 7)).2 = true ∧
    hasSubmit (Block_process_call kFake ⟨some 3, 5⟩ 0 (List.replicate 40 7)).2 = true :=
  (C1_amended kFake ⟨some 3, 5⟩ 0 (List.replicate 40 7)).2 (by decide)

/-- C2 counterexample: a client constructed via `New` at address 0x00
issues no i2c_SLAVE ioctl at construction (the zero value of the cached
address already matches), and two subsequent protocol operations issue
none either — zero in total, not exactly one as the claim states. -/
theorem C2_counterexample :
    (New kFake 1 0).1 = Except.ok ⟨some 3, 0⟩ ∧
    countIoctl ((New kFake 1 0).2 ++
      (runOps kFake ⟨some 3, 0⟩ [Op.rbyte, Op.rbyte]).2) = 0 :=
  ⟨rfl, by decide⟩

/-- C2 (amended): for a client successfully constructed via `New` with a
non-zero address, the i2c_SLAVE ioctl is issued exactly once at
construction; any sequence of protocol operations afterwards (during which
the cached address never changes) issues zero further ioctls; and a
`Set_addr` call with a value different from the cached address issues it
exactly once more. -/
theorem C2_amended (k : Kernel) (bus a fd : Nat)
    (hopen : k.openFd ("/dev/i2c-" ++ toString bus) = Except.ok fd)
    (ha : a ≠ 0)
    (hioctl : k.ioctlErrno fd i2c_SLAVE a = 0) :
    New k bus a = (Except.ok ⟨some fd, a⟩,
      [Event.osOpen ("/dev/i2c-" ++ toString bus), Event.ioctl fd i2c_SLAVE a]) ∧
    countIoctl (New k bus a).2 = 1 ∧
    (∀ ops : List Op, countIoctl (runOps k ⟨some fd, a⟩ ops).2 = 0) ∧
    (∀ a2 : Nat, a2 ≠ a → countIoctl (Set_addr k ⟨some fd, a⟩ a2).2.2 = 1) := by
  have h0a : (0 : Nat) ≠ a := fun h => ha h.symm
  have h1 : New k bus a = (Except.ok ⟨some fd, a⟩,
      [Event.osOpen ("/dev/i2c-" ++ toString bus), Event.ioctl fd i2c_SLAVE a]) := by
    simp [New, Bus_open, hopen, Set_addr, ioctl, goErr, Fd, hioctl, h0a]
  refine ⟨h1, ?_, ?_, ?_⟩
  · rw [h1]
    simp [countIoctl, isSlaveIoctl, i2c_SLAVE]
  · exact fun ops => runOps_countIoctl k ⟨some fd, a⟩ ops
  · intro a2 h2
    have h2a : ((⟨some fd, a⟩ : SMBus).addr) ≠ a2 := fun h => h2 h.symm
    rw [set_addr_events k ⟨some fd, a⟩ a2 h2a]
    simp [countIoctl, isSlaveIoctl, i2c_SLAVE]

/-- C2 amended witness at bus 1, address 5, new address 6. -/
theorem C2_amended_witness :
    New kFake 1 5 = (Except.ok ⟨some 3, 5⟩,
      [Event.osOpen ("/dev/i2c-" ++ toString 1), Event.ioctl 3 i2c_SLAVE 5]) ∧
    countIoctl (New kFake 1 5).2 = 1 ∧
    (∀ ops : List Op, countIoctl (runOps kFake ⟨some 3, 5⟩ ops).2 = 0) ∧
    (∀ a2 : Nat, a2 ≠ 5 → countIoctl (Set_addr kFake ⟨some 3, 5⟩ a2).2.2 = 1) :=
  C2_amended kFake 1 5 3 rfl (by decide) rfl

/-- C3 counterexample: after a successful `Bus_close` the next `Read_byte`
does not fail with an InvalidState error and does reach the kernel: it
submits a transaction on the nil-file descriptor sentinel (`C.int` value
-1) and surfaces the kernel errno (9, EBADF) as an ordinary error. -/
theorem C3_counterexample :
    Bus_close kErr ⟨some 3, 5⟩ = (none, ⟨none, 5⟩, [Event.osClose 3]) ∧
    Read_byte kErr ⟨none, 5⟩ =
      ((0, some (GoError.errno 9)), [Event.submit (-1) SMBusCall.readByte]) ∧
    hasSubmit (Read_byte kErr ⟨none, 5⟩).2 = true :=
  ⟨rfl, by decide, by decide⟩

/-- C3 (amended): on a closed client (nil bus file), every protocol
operation (given a non-empty buffer for the buffer-style ones) does not
fault; it submits the transaction with file descriptor -1 (the `C.int`
image of the nil file's `Fd()` sentinel) and surfaces the kernel's errno
for that call as an ordinary errno error — there is no dedicated
InvalidState error. -/
theorem C3_amended (k : Kernel) (smb : SMBus) (op : Op) (e : Nat)
    (hclosed : smb.bus = none) (hbuf : bufOK op)
    (h : (k.respond (-1) (callOf op)).errno = e) (he : e ≠ 0) :
    (runOp k smb op).2.2 = [Event.submit (-1) (callOf op)] ∧
    ∃ res, (runOp k smb op).1 = Outcome.ok res ∧ errOf res = some (GoError.errno e) := by
  have hfd : cint (Fd smb.bus) = -1 := by rw [hclosed]; exact cint_fd_none
  have h2 := opSurfacesErrno k smb op e hbuf (by rw [hfd]; exact h) he
  rwa [hfd] at h2

/-- C3 amended witness: `Read_byte` on a closed client under the failing
fake kernel. -/
theorem C3_amended_witness :
    (runOp kErr ⟨none, 5⟩ Op.rbyte).2.2 = [Event.submit (-1) (callOf Op.rbyte)] ∧
    ∃ res, (runOp kErr ⟨none, 5⟩ Op.rbyte).1 = Outcome.ok res ∧
      errOf res = some (GoError.errno 9) :=
  C3_amended kErr ⟨none, 5⟩ Op.rbyte 9 rfl trivial rfl (by decide)

/-- C4 counterexample: `Bus_close` on a client whose bus was never opened
does fail — it returns `os.ErrInvalid` from closing the nil file — contrary
to the claim that it does not fail. -/
theorem C4_counterexample :
    Bus_close kFake ⟨none, 0⟩ = (some GoError.errInvalid, ⟨none, 0⟩, []) := by
  decide

/-- C4 (amended): closing an open client succeeds, releases the OS resource
exactly once and resets the bus field; a second close (or a close on a
never-opened client) returns the `os.ErrInvalid` error — so it does fail —
but performs no OS close, hence the resource is never released twice. -/
theorem C4_amended (k : Kernel) (smb : SMBus) (fd : Nat)
    (h : smb.bus = some fd) (hc : k.closeErrno fd = 0) :
    Bus_close k smb = (none, ⟨none, smb.addr⟩, [Event.osClose fd]) ∧
    Bus_close k ⟨none, smb.addr⟩ = (some GoError.errInvalid, ⟨none, smb.addr⟩, []) := by
  constructor
  · simp [Bus_close, h, hc]
  · simp [Bus_close]

/-- C4 amended witness. -/
theorem C4_amended_witness :
    Bus_close kFake ⟨some 3, 5⟩ = (none, ⟨none, 5⟩, [Event.osClose 3]) ∧
    Bus_close kFake ⟨none, 5⟩ = (some GoError.errInvalid, ⟨none, 5⟩, []) :=
  C4_amended kFake ⟨some 3, 5⟩ 3 rfl rfl

/-- C5: when the kernel reports a failure (non-zero errno) for the
submitted transaction, every protocol operation (given a non-empty buffer
for the buffer-style ones, which is required to even reach the
transaction) returns normally — no runtime fault — and its error result is
exactly that errno; the failure is never swallowed. -/
theorem C5_errno_surfaced (k : Kernel) (smb : SMBus) (op : Op) (e : Nat)
    (hbuf : bufOK op)
    (h : (k.respond (cint (Fd smb.bus)) (callOf op)).errno = e) (he : e ≠ 0) :
    ∃ res, (runOp k smb op).1 = Outcome.ok res ∧ errOf res = some (GoError.errno e) :=
  (opSurfacesErrno k smb op e hbuf h he).2

/-- C5 witness: a failing block write surfaces errno 9. -/
theorem C5_witness :
    ∃ res, (runOp kErr ⟨some 3, 5⟩ (Op.wblockData 2 [7])).1 = Outcome.ok res ∧
      errOf res = some (GoError.errno 9) :=
  C5_errno_surfaced kErr ⟨some 3, 5⟩ (Op.wblockData 2 [7]) 9 (by decide) rfl (by decide)

/-- C6: on success (errno 0, non-negative status) the numeric reads are
masked to their declared width: `Read_byte` and `Read_byte_data` return the
transaction status modulo 2^8, `Read_word_data` and `Process_call` modulo
2^16. -/
theorem C6_masking (k : Kernel) (smb : SMBus) (c v : Nat)
    (h0 : ∀ fd call, (k.respond fd call).errno = 0)
    (h1 : ∀ fd call, 0 ≤ (k.respond fd call).status) :
    (Read_byte k smb).1.1 =
      (k.respond (cint (Fd smb.bus)) SMBusCall.readByte).status.toNat % 2 ^ 8 ∧
    (Read_byte_data k smb c).1.1 =
      (k.respond (cint (Fd smb.bus)) (SMBusCall.readByteData c)).status.toNat % 2 ^ 8 ∧
    (Read_word_data k smb c).1.1 =
      (k.respond (cint (Fd smb.bus)) (SMBusCall.readWordData c)).status.toNat % 2 ^ 16 ∧
    (Process_call k smb c v).1.1 =
      (k.respond (cint (Fd smb.bus)) (SMBusCall.processCall c v)).status.toNat % 2 ^ 16 := by
  refine ⟨?_, ?_, ?_, ?_⟩ <;>
    simp [Read_byte, Read_byte_data, Read_word_data, Process_call, c_value_call,
      set_addr_self, h0, mask8, mask16, h1]

/-- C6 witness: under a fake kernel with constant status 0x1234 the byte
reads return 0x34 and the word reads return 0x1234. -/
theorem C6_witness :
    (Read_byte kFake ⟨some 3, 5⟩).1.1 =
      (kFake.respond (cint (Fd (some 3))) SMBusCall.readByte).status.toNat % 2 ^ 8 ∧
    (Read_byte_data kFake ⟨some 3, 5⟩ 2).1.1 =
      (kFake.respond (cint (Fd (some 3))) (SMBusCall.readByteData 2)).status.toNat % 2 ^ 8 ∧
    (Read_word_data kFake ⟨some 3, 5⟩ 2).1.1 =
      (kFake.respond (cint (Fd (some 3))) (SMBusCall.readWordData 2)).status.toNat % 2 ^ 16 ∧
    (Process_call kFake ⟨some 3, 5⟩ 2 9).1.1 =
      (kFake.respond (cint (Fd (some 3))) (SMBusCall.processCall 2 9)).status.toNat % 2 ^ 16 :=
  C6_masking kFake ⟨some 3, 5⟩ 2 9 (fun _ _ => rfl)
    (fun _ _ => show (0 : Int) ≤ 0x1234 by decide)

/-- C7: on a successful `Read_block_data` where the kernel supplies L bytes
into a buffer of capacity C ≥ L, the returned count is L (the
kernel-reported length, not the capacity) and the first L bytes of the
updated buffer are exactly the kernel's bytes; the buffer keeps its
capacity. -/
theorem C7_block_read_truncation (k : Kernel) (smb : SMBus) (c : Nat) (buf bs : List Nat)
    (hne : buf ≠ [])
    (h0 : (k.respond (cint (Fd smb.bus)) (SMBusCall.readBlockData c)).errno = 0)
    (hb : (k.respond (cint (Fd smb.bus)) (SMBusCall.readBlockData c)).block = bs)
    (hlen : bs.length ≤ buf.length) :
    Read_block_data k smb c buf =
      (Outcome.ok (((bs.length : Int), none), overlay buf bs),
        [Event.submit (cint (Fd smb.bus)) (SMBusCall.readBlockData c)]) ∧
    (overlay buf bs).take bs.length = bs ∧
    (overlay buf bs).length = buf.length := by
  refine ⟨?_, ?_, ?_⟩
  · simp [Read_block_data, set_addr_self, c_block_read, h0, hb, goErr, hne]
  · simp [overlay, List.take_left]
  · simp [overlay]
    omega

/-- C7 witness: a 31-byte buffer with a 5-byte kernel block yields count 5
and the kernel's bytes at the front. -/
theorem C7_witness :
    Read_block_data kBlock ⟨some 3, 5⟩ 2 (List.replicate 31 0) =
      (Outcome.ok ((5, none), overlay (List.replicate 31 0) [1, 2, 3, 4, 5]),
        [Event.submit 3 (SMBusCall.readBlockData 2)]) ∧
    (overlay (List.replicate 31 0) [1, 2, 3, 4, 5]).take 5 = [1, 2, 3, 4, 5] ∧
    (overlay (List.replicate 31 0) [1, 2, 3, 4, 5]).length = 31 := by
  exact C7_block_read_truncation kBlock ⟨some 3, 5⟩ 2 (List.replicate 31 0) [1, 2, 3, 4, 5]
    (by decide) rfl rfl (by decide)

/-- C8: a successful `Block_process_call` returns exactly the
kernel-supplied response slice — its length is the kernel-reported response
length and its contents are the kernel's bytes — and whenever the response
is shorter than the input buffer the result is not the full input buffer. -/
theorem C8_block_process_result (k : Kernel) (smb : SMBus) (c : Nat) (buf bs : List Nat)
    (hne : buf ≠ [])
    (h0 : (k.respond (cint (Fd smb.bus))
      (SMBusCall.blockProcessCall c (buf.length % 256) buf)).errno = 0)
    (hb : (k.respond (cint (Fd smb.bus))
      (SMBusCall.blockProcessCall c (buf.length % 256) buf)).block = bs)
    (hlen : bs.length ≤ buf.length) :
    (Block_process_call k smb c buf).1 = Outcome.ok (some bs, none) ∧
    (bs.length < buf.length → bs ≠ buf) := by
  constructor
  · have hov : (overlay buf bs).length = buf.length := by
      simp [overlay]
      omega
    have hneg : ¬((bs.length : Int) < 0) := not_lt.mpr (Int.natCast_nonneg _)
    have hfit : ¬(((overlay buf bs).length : Int) < (bs.length : Int)) := by
      rw [hov]
      exact_mod_cast Nat.not_lt.mpr hlen
    simp [Block_process_call, set_addr_self, c_block_read, h0, hb, goErr, hne,
      hneg, hfit, overlay, List.take_left]
    rw [if_neg (not_lt.mpr (Int.natCast_nonneg _))]
  · intro hlt heq
    rw [heq] at hlt
    exact lt_irrefl _ hlt

/-- C8 witness: a 31-byte input with a 5-byte kernel response yields
exactly the 5 response bytes, not the input buffer. -/
theorem C8_witness :
    (Block_process_call kBlock ⟨some 3, 5⟩ 2 (List.replicate 31 9)).1 =
      Outcome.ok (some [1, 2, 3, 4, 5], none) ∧
    (([1, 2, 3, 4, 5] : List Nat).length < (List.replicate 31 9).length →
      ([1, 2, 3, 4, 5] : List Nat) ≠ List.replicate 31 9) := by
  exact C8_block_process_result kBlock ⟨some 3, 5⟩ 2 (List.replicate 31 9) [1, 2, 3, 4, 5]
    (by decide) rfl rfl (by decide)

/-- C9: `Bus_open` on a client with an open bus is rejected with the
one-bus-at-a-time error, leaving the state unchanged and touching no OS
resource; on an unopened client it opens exactly the device path
`/dev/i2c-<N>`, and on OS success installs the returned descriptor. -/
theorem C9_bus_open (k : Kernel) (smb : SMBus) (n : Nat) :
    (∀ fd, smb.bus = some fd →
      Bus_open k smb n =
        (some (GoError.errString "Can only open one bus at at time"), smb, [])) ∧
    (smb.bus = none →
      (Bus_open k smb n).2.2 = [Event.osOpen ("/dev/i2c-" ++ toString n)] ∧
      ∀ fd2, k.openFd ("/dev/i2c-" ++ toString n) = Except.ok fd2 →
        Bus_open k smb n = (none, { smb with bus := some fd2 },
          [Event.osOpen ("/dev/i2c-" ++ toString n)])) := by
  constructor
  · intro fd h
    simp [Bus_open, h]
  · intro h
    constructor
    · simp only [Bus_open, h]
      split <;> rfl
    · intro fd2 hopen
      simp [Bus_open, h, hopen]

/-- C9 witness: a second open on a bound client is rejected without OS
interaction; an open on an unopened client uses path `/dev/i2c-1`. -/
theorem C9_witness :
    Bus_open kFake ⟨some 3, 5⟩ 1 =
      (some (GoError.errString "Can only open one bus at at time"), ⟨some 3, 5⟩, []) ∧
    Bus_open kFake ⟨none, 5⟩ 1 =
      (none, ⟨some 3, 5⟩, [Event.osOpen ("/dev/i2c-" ++ toString 1)]) :=
  ⟨(C9_bus_open kFake ⟨some 3, 5⟩ 1).1 3 rfl,
    ((C9_bus_open kFake ⟨none, 5⟩ 1).2 rfl).2 3 rfl⟩

/-- C10: constructing a client via `New` with address 0x00 issues no
i2c_SLAVE ioctl at all: the freshly allocated client's cached address is
already 0, so `Set_addr 0` skips the ioctl and the whole construction trace
is just the device open. -/
theorem C10_new_zero_addr (k : Kernel) (n fd : Nat)
    (h : k.openFd ("/dev/i2c-" ++ toString n) = Except.ok fd) :
    New k n 0 = (Except.ok ⟨some fd, 0⟩, [Event.osOpen ("/dev/i2c-" ++ toString n)]) ∧
    countIoctl (New k n 0).2 = 0 := by
  have h1 : New k n 0 =
      (Except.ok ⟨some fd, 0⟩, [Event.osOpen ("/dev/i2c-" ++ toString n)]) := by
    simp [New, Bus_open, h, Set_addr]
  refine ⟨h1, ?_⟩
  rw [h1]
  rfl

/-- C10 witness. -/
theorem C10_witness :
    New kFake 1 0 = (Except.ok ⟨some 3, 0⟩, [Event.osOpen ("/dev/i2c-" ++ toString 1)]) ∧
    countIoctl (New kFake 1 0).2 = 0 :=
  C10_new_zero_addr kFake 1 3 rfl

end GoSmbus
